import Mathlib

/-
  Verification of code/network/multi_portfwd.cpp (port-forwarding subsystem).

  The module keeps four static variables (PF_initted, PF_pcp_flow, PF_pcp_ctx,
  PF_wait_timestamp) and exposes three operations: multi_port_forward_init,
  multi_port_forward_do (the per-frame tick) and multi_port_forward_close,
  plus the address-lookup helper PF_get_addr.

  The external collaborators (libpcp engine, getaddrinfo, the monotonic timer,
  inet_ntop and localtime) are modelled as environment records whose fields
  hold the values those calls return during one operation.  Every operation
  returns the new state together with an ordered trace of events: each engine
  call that was made (with the handle values passed to it) interleaved with
  each log line handed to the multi_log report sink (ml_string / ml_printf).
  Pointers are modelled as Option Nat, with none standing for nullptr.
-/

set_option autoImplicit false

namespace MultiPortFwd

/-- PCP_SERVER_PORT from default_config.h in libpcp. -/
def PCP_SERVER_PORT : Nat := 5351

/-- PCP_MAX_SUPPORTED_VERSION from default_config.h in libpcp. -/
def PCP_MAX_SUPPORTED_VERSION : Nat := 2

/-- static const uint32_t PF_lifetime = 7200 (2 hrs). -/
def PF_lifetime : Nat := 7200

/-- IPPROTO_UDP, the transport passed to pcp_new_flow. -/
def IPPROTO_UDP : Nat := 17

/-- Address family tag of a getaddrinfo result entry. -/
inductive AddrFamily where
  | af_inet
  | af_inet6
  | af_other
  deriving DecidableEq

/-- One entry of the list produced by getaddrinfo: its family and (abstracted)
socket address payload. -/
structure addrinfo where
  ai_family : AddrFamily
  ai_addr : Nat
  deriving DecidableEq

/-- pcp_fstate_e: flow states reported by pcp_eval_flow_state.  The module only
inspects pcp_state_failed and pcp_state_succeeded; every other engine state is
covered by the remaining constructors. -/
inductive pcp_fstate_e where
  | pcp_state_processing
  | pcp_state_succeeded
  | pcp_state_short_lifetime_error
  | pcp_state_failed
  deriving DecidableEq

/-- One pcp_flow_info_t record returned by pcp_flow_get_info.  The ip fields
abstract the binary in6_addr values, the ports are 16-bit values in network
byte order (as stored in the struct), recv_lifetime_end is the time_t lease
end. -/
structure pcp_flow_info_t where
  int_ip : Nat
  ext_ip : Nat
  int_port : Nat
  ext_port : Nat
  recv_lifetime_end : Int
  deriving DecidableEq

/-- The module's static state: PF_initted, PF_pcp_flow, PF_pcp_ctx and
PF_wait_timestamp, in declaration order.  Handles are Option Nat with none
for nullptr. -/
structure PFState where
  PF_initted : Bool
  PF_pcp_flow : Option Nat
  PF_pcp_ctx : Option Nat
  PF_wait_timestamp : Int
  deriving DecidableEq

/-- The state the static initializers establish before any call. -/
def pfInitial : PFState :=
  { PF_initted := false, PF_pcp_flow := none, PF_pcp_ctx := none, PF_wait_timestamp := 0 }

/-- One observable event of an operation: an engine call (recording the handle
arguments passed) or a log line sent to the report sink, in program order. -/
inductive Event where
  | log (msg : String)
  | pcp_init (autodiscover : Bool)
  | pcp_add_server (ctx : Nat) (addr : Nat) (version : Nat)
  | pcp_new_flow (ctx : Nat) (local_addr : Option Nat) (proto : Nat) (lifetime : Nat)
  | pcp_pulse (ctx : Option Nat)
  | pcp_eval_flow_state (flow : Option Nat)
  | pcp_flow_get_info (flow : Option Nat)
  | free_flow_info
  | pcp_terminate (ctx : Option Nat) (graceful : Nat)
  deriving DecidableEq

/-- The log lines of a trace, in order. -/
def logsOf (events : List Event) : List String :=
  events.filterMap (fun e => match e with | Event.log m => some m | _ => none)

/-- PF_get_addr, driven by the outcome of its getaddrinfo call: on error it
logs the resolver's error string and reports failure; otherwise it takes the
first entry whose family is AF_INET or AF_INET6 (failure, with no log, when
none qualifies).  The returned pair is (emitted events, resolved address). -/
def PF_get_addr (resolv : Except String (List addrinfo)) : List Event × Option Nat :=
  match resolv with
  | Except.error err =>
      ([Event.log ("PF_get_addr : getaddrinfo() => " ++ err)], none)
  | Except.ok srvinfo =>
      ([], (srvinfo.find? (fun srv =>
              srv.ai_family == AddrFamily.af_inet ||
              srv.ai_family == AddrFamily.af_inet6)).map addrinfo.ai_addr)

/-- multi_port_forward_close. -/
def multi_port_forward_close (s : PFState) : PFState × List Event :=
  if !s.PF_initted then (s, [])
  else
    ({ PF_initted := false, PF_pcp_flow := none, PF_pcp_ctx := none, PF_wait_timestamp := 0 },
     [Event.pcp_terminate s.PF_pcp_ctx 1] ++
       (if s.PF_pcp_flow.isSome then [Event.log "Port forward => Mapping removed"]
        else [Event.log "Port forward => Shutdown"]))

/-- The external outcomes one multi_port_forward_init call observes:
Cmdline_gateway_ip, the getaddrinfo result for that gateway host (consulted
only when the option is set), the pcp_init return, the getaddrinfo result for
the local wildcard lookup, the pcp_new_flow return, the wait hint of the
kick-off pcp_pulse, and the timer_get_milliseconds reading taken right after
that pulse. -/
structure InitEnv where
  cmdline_gateway_ip : Option String
  gateway_resolv : Except String (List addrinfo)
  pcp_init_result : Option Nat
  local_resolv : Except String (List addrinfo)
  new_flow_result : Option Nat
  pulse_wait : Int
  now : Int

/-- multi_port_forward_init. -/
def multi_port_forward_init (env : InitEnv) (s : PFState) : PFState × List Event :=
  if s.PF_initted then (s, [])
  else
    let gw : List Event × Option Nat :=
      match env.cmdline_gateway_ip with
      | some _ => PF_get_addr env.gateway_resolv
      | none => ([], none)
    let auto_discover : Bool := gw.2.isNone
    let events0 := gw.1 ++ [Event.pcp_init auto_discover]
    let s1 := { s with PF_pcp_ctx := env.pcp_init_result }
    match env.pcp_init_result with
    | none => (s1, events0 ++ [Event.log "Port forward => Initialization failed!"])
    | some c =>
      let s2 := { s1 with PF_initted := true }
      let events1 := events0 ++
        (match gw.2 with
         | some a => [Event.pcp_add_server c a PCP_MAX_SUPPORTED_VERSION]
         | none => [])
      let localr := PF_get_addr env.local_resolv
      let events2 := events1 ++ localr.1 ++
        [Event.pcp_new_flow c localr.2 IPPROTO_UDP PF_lifetime]
      let s3 := { s2 with PF_pcp_flow := env.new_flow_result }
      match env.new_flow_result with
      | none =>
        let closed := multi_port_forward_close s3
        (closed.1, events2 ++ [Event.log "Port forward => Failed to init mapping!"] ++ closed.2)
      | some _ =>
        let s4 := { s3 with PF_wait_timestamp := env.now + env.pulse_wait }
        (s4, events2 ++ [Event.log "Port forward => Initialized successfully",
                         Event.pcp_pulse (some c)])

/-- A broken-down local time as produced by localtime (the fields strftime
"%m/%d %H:%M:%S" reads). -/
structure tm where
  tm_mon : Nat
  tm_mday : Nat
  tm_hour : Nat
  tm_min : Nat
  tm_sec : Nat
  deriving DecidableEq

/-- Zero-padded two-digit decimal field, as strftime renders %m %d %H %M %S. -/
def fmt2 (n : Nat) : String :=
  if n < 10 then "0" ++ toString n else toString n

/-- strftime with format "%m/%d %H:%M:%S" (tm_mon is 0-based, %m is 1-based). -/
def strftime_md_hms (t : tm) : String :=
  fmt2 (t.tm_mon + 1) ++ "/" ++ fmt2 t.tm_mday ++ " " ++
    fmt2 t.tm_hour ++ ":" ++ fmt2 t.tm_min ++ ":" ++ fmt2 t.tm_sec

/-- ntohs on a little-endian host: swap the two bytes of a 16-bit value. -/
def ntohs (v : Nat) : Nat := (v % 256) * 256 + (v / 256) % 256

/-- The external outcomes one multi_port_forward_do call observes: the timer
reading at the admission gate, the pcp_pulse wait hint, the timer reading
taken right after the pulse, the pcp_eval_flow_state outcome (none when it
reports no readable state change), the pcp_flow_get_info result (none for a
null pointer), and the libc renderers inet_ntop (for AF_INET6) and
localtime. -/
structure TickEnv where
  now_gate : Int
  pulse_wait : Int
  now_after : Int
  eval_state : Option pcp_fstate_e
  flow_info : Option (List pcp_flow_info_t)
  inet_ntop6 : Nat → String
  localtime : Int → tm

/-- The ml_printf line "Port forward => Mapping successful  [%s]:%u <-> [%s]:%u". -/
def mapping_successful_line (env : TickEnv) (info : pcp_flow_info_t) : String :=
  "Port forward => Mapping successful  [" ++ env.inet_ntop6 info.int_ip ++ "]:" ++
    toString (ntohs info.int_port) ++ " <-> [" ++ env.inet_ntop6 info.ext_ip ++ "]:" ++
    toString (ntohs info.ext_port)

/-- The ml_printf line "Port forward => Mapping valid until %s". -/
def mapping_valid_line (env : TickEnv) (info : pcp_flow_info_t) : String :=
  "Port forward => Mapping valid until " ++ strftime_md_hms (env.localtime info.recv_lifetime_end)

/-- multi_port_forward_do. -/
def multi_port_forward_do (env : TickEnv) (s : PFState) : PFState × List Event :=
  if !s.PF_initted then (s, [])
  else if s.PF_wait_timestamp > env.now_gate then (s, [])
  else
    let s1 := { s with PF_wait_timestamp := env.now_after + env.pulse_wait }
    let events0 := [Event.pcp_pulse s.PF_pcp_ctx, Event.pcp_eval_flow_state s.PF_pcp_flow]
    match env.eval_state with
    | none => (s1, events0)
    | some st =>
      if st = pcp_fstate_e.pcp_state_failed then
        (s1, events0 ++ [Event.log "Port forward => Mapping failed!"])
      else if st = pcp_fstate_e.pcp_state_succeeded then
        match env.flow_info with
        | none => (s1, events0 ++ [Event.pcp_flow_get_info s.PF_pcp_flow])
        | some infos =>
          (s1, events0 ++ [Event.pcp_flow_get_info s.PF_pcp_flow] ++
            infos.flatMap (fun info =>
              [Event.log (mapping_successful_line env info),
               Event.log (mapping_valid_line env info)]) ++
            [Event.free_flow_info])
      else (s1, events0)

/-- A concrete flow-info record, for exercising the theorems on inputs. -/
def info0 : pcp_flow_info_t :=
  { int_ip := 10, ext_ip := 20, int_port := 36895, ext_port := 36895,
    recv_lifetime_end := 1700000000 }

/-- A concrete tick environment whose state query reports no change. -/
def tickEnv0 : TickEnv :=
  { now_gate := 100, pulse_wait := 250, now_after := 105,
    eval_state := none, flow_info := none,
    inet_ntop6 := fun _ => "::1",
    localtime := fun _ => { tm_mon := 0, tm_mday := 1, tm_hour := 2, tm_min := 3, tm_sec := 4 } }

/-- A concrete tick environment whose state query reports a failed transition. -/
def tickEnvFailed : TickEnv :=
  { tickEnv0 with eval_state := some pcp_fstate_e.pcp_state_failed }

/-- A concrete tick environment whose state query reports a succeeded
transition with one flow-info record. -/
def tickEnvSucceeded : TickEnv :=
  { tickEnv0 with
    eval_state := some pcp_fstate_e.pcp_state_succeeded,
    flow_info := some [info0] }

/-- A concrete state as left by a successful init: initialized, live handles,
a wait timestamp already in the past relative to tickEnv0. -/
def sReady : PFState :=
  { PF_initted := true, PF_pcp_flow := some 2, PF_pcp_ctx := some 1, PF_wait_timestamp := 50 }

/-- A concrete init environment in which every external call succeeds (no
gateway host configured). -/
def initEnvOk : InitEnv :=
  { cmdline_gateway_ip := none, gateway_resolv := Except.ok [],
    pcp_init_result := some 1,
    local_resolv := Except.ok [{ ai_family := AddrFamily.af_inet, ai_addr := 7 }],
    new_flow_result := some 2, pulse_wait := 500, now := 1000 }

/-- A concrete init environment whose operator-specified gateway host fails
to resolve, while everything else succeeds. -/
def initEnvGwFail : InitEnv :=
  { cmdline_gateway_ip := some "192.168.0.1",
    gateway_resolv := Except.error "Name or service not known",
    pcp_init_result := some 1,
    local_resolv := Except.ok [{ ai_family := AddrFamily.af_inet, ai_addr := 7 }],
    new_flow_result := some 2, pulse_wait := 500, now := 1000 }

/-- A concrete init environment whose local wildcard lookup fails while all
engine calls succeed. -/
def initEnvLocalFail : InitEnv :=
  { cmdline_gateway_ip := none, gateway_resolv := Except.ok [],
    pcp_init_result := some 1,
    local_resolv := Except.error "Temporary failure in name resolution",
    new_flow_result := some 2, pulse_wait := 500, now := 1000 }

/-- The report-sink head every message of this module is supposed to carry. -/
def pfLogHead : String := "Port forward => "

/-- The head of the resolver's getaddrinfo failure line. -/
def resolverLogHead : String := "PF_get_addr : "

/-- One externally triggered operation together with the external outcomes it
observes while running. -/
inductive Op where
  | op_init (env : InitEnv)
  | op_tick (env : TickEnv)
  | op_close

/-- Run one operation on the session state. -/
def runOp (op : Op) (s : PFState) : PFState × List Event :=
  match op with
  | Op.op_init env => multi_port_forward_init env s
  | Op.op_tick env => multi_port_forward_do env s
  | Op.op_close => multi_port_forward_close s

/-- Run a sequence of operations, collecting the concatenated trace. -/
def runOps : List Op → PFState → PFState × List Event
  | [], s => (s, [])
  | op :: rest, s =>
    let r := runOp op s
    let r2 := runOps rest r.1
    (r2.1, r.2 ++ r2.2)

/-- The handle invariant: an initialized session holds a non-null engine
context. -/
def ctxInv (s : PFState) : Prop := s.PF_initted = true → s.PF_pcp_ctx ≠ none

/-- The event passes no null engine context to pcp_pulse or pcp_terminate. -/
def goodEvent (e : Event) : Prop :=
  match e with
  | Event.pcp_pulse c => c ≠ none
  | Event.pcp_terminate c _ => c ≠ none
  | _ => True

/-- Does an event record an engine-construction call (pcp_init)? -/
def isInitCall (e : Event) : Bool :=
  match e with | Event.pcp_init _ => true | _ => false

/-- Does an event record a flow request (pcp_new_flow)? -/
def isNewFlowCall (e : Event) : Bool :=
  match e with | Event.pcp_new_flow _ _ _ _ => true | _ => false

/-- Does an event record a manual gateway registration (pcp_add_server)? -/
def isAddServerCall (e : Event) : Bool :=
  match e with | Event.pcp_add_server _ _ _ => true | _ => false

/-- C1: a Tick before the due time, or while uninitialized, is a
complete no-op. -/
theorem tick_noop_before_due (env : TickEnv) (s : PFState)
    (h : s.PF_initted = false ∨ s.PF_wait_timestamp > env.now_gate) :
    multi_port_forward_do env s = (s, []) := by
  unfold multi_port_forward_do
  rcases h with h | h
  · simp [h]
  · cases hb : s.PF_initted
    · simp
    · simp [h]

/-- Witness for C1 at a concrete uninitialized state. -/
theorem tick_noop_before_due_witness :
    (pfInitial.PF_initted = false ∨ pfInitial.PF_wait_timestamp > tickEnv0.now_gate) ∧
    multi_port_forward_do tickEnv0 pfInitial = (pfInitial, []) :=
  ⟨Or.inl rfl, tick_noop_before_due tickEnv0 pfInitial (Or.inl rfl)⟩

/-- C2: on a due tick, a reported transition to the failed state yields
exactly the one "Mapping failed!" log line, and a tick on which the engine
reports no state change emits no log line at all. -/
theorem tick_terminal_report_once (env : TickEnv) (s : PFState)
    (hinit : s.PF_initted = true) (hdue : s.PF_wait_timestamp ≤ env.now_gate) :
    (env.eval_state = some pcp_fstate_e.pcp_state_failed →
      logsOf (multi_port_forward_do env s).2 = ["Port forward => Mapping failed!"]) ∧
    (env.eval_state = none → logsOf (multi_port_forward_do env s).2 = []) := by
  have hgate : ¬ (s.PF_wait_timestamp > env.now_gate) := not_lt.mpr hdue
  refine ⟨fun hst => ?_, fun hst => ?_⟩ <;>
    simp [multi_port_forward_do, hinit, hgate, hst, logsOf]

/-- Witness for C2 at a concrete due state and failed transition. -/
theorem tick_terminal_report_once_witness :
    sReady.PF_initted = true ∧ sReady.PF_wait_timestamp ≤ tickEnvFailed.now_gate ∧
    logsOf (multi_port_forward_do tickEnvFailed sReady).2 =
      ["Port forward => Mapping failed!"] ∧
    logsOf (multi_port_forward_do tickEnv0 sReady).2 = [] :=
  ⟨rfl, by decide,
   (tick_terminal_report_once tickEnvFailed sReady rfl (by decide)).1 rfl,
   (tick_terminal_report_once tickEnv0 sReady rfl (by decide)).2 rfl⟩

/-- C3: on a due tick that observes a succeeded transition, the module logs
exactly one "Mapping successful" line and one "Mapping valid until" line per
flow-info entry (the latter formatted by strftime "%m/%d %H:%M:%S" on the
localtime of the lease end), and frees the flow-info allocation after all
logging. -/
theorem tick_succeeded_logs (env : TickEnv) (s : PFState) (infos : List pcp_flow_info_t)
    (hinit : s.PF_initted = true) (hdue : s.PF_wait_timestamp ≤ env.now_gate)
    (hst : env.eval_state = some pcp_fstate_e.pcp_state_succeeded)
    (hinfo : env.flow_info = some infos) :
    (multi_port_forward_do env s).2 =
      [Event.pcp_pulse s.PF_pcp_ctx, Event.pcp_eval_flow_state s.PF_pcp_flow,
       Event.pcp_flow_get_info s.PF_pcp_flow] ++
        infos.flatMap (fun info =>
          [Event.log (mapping_successful_line env info),
           Event.log (mapping_valid_line env info)]) ++ [Event.free_flow_info] ∧
    (∀ info : pcp_flow_info_t,
      mapping_valid_line env info =
        "Port forward => Mapping valid until " ++
          strftime_md_hms (env.localtime info.recv_lifetime_end)) := by
  have hgate : ¬ (s.PF_wait_timestamp > env.now_gate) := not_lt.mpr hdue
  constructor
  · simp [multi_port_forward_do, hinit, hgate, hst, hinfo]
  · intro info
    rfl

/-- Witness for C3 at a concrete due state, succeeded transition and a
one-entry flow-info list. -/
theorem tick_succeeded_logs_witness :
    tickEnvSucceeded.eval_state = some pcp_fstate_e.pcp_state_succeeded ∧
    tickEnvSucceeded.flow_info = some [info0] ∧
    (multi_port_forward_do tickEnvSucceeded sReady).2 =
      [Event.pcp_pulse sReady.PF_pcp_ctx, Event.pcp_eval_flow_state sReady.PF_pcp_flow,
       Event.pcp_flow_get_info sReady.PF_pcp_flow] ++
        [info0].flatMap (fun info =>
          [Event.log (mapping_successful_line tickEnvSucceeded info),
           Event.log (mapping_valid_line tickEnvSucceeded info)]) ++ [Event.free_flow_info] :=
  ⟨rfl, rfl,
   (tick_succeeded_logs tickEnvSucceeded sReady [info0] rfl (by decide) rfl rfl).1⟩

/-- C4: every pulse reschedules: the wait timestamp after a fully successful
init is the timer reading taken after the kick-off pulse plus that pulse's
wait hint, and the wait timestamp after any due tick is the timer reading
taken after its pulse plus that pulse's wait hint. -/
theorem pulse_sets_next_due (ienv : InitEnv) (tenv : TickEnv) (s t : PFState) (c f : Nat)
    (h0 : s.PF_initted = false)
    (h1 : ienv.pcp_init_result = some c)
    (h2 : ienv.new_flow_result = some f) :
    (multi_port_forward_init ienv s).1.PF_wait_timestamp = ienv.now + ienv.pulse_wait ∧
    (t.PF_initted = true → t.PF_wait_timestamp ≤ tenv.now_gate →
      (multi_port_forward_do tenv t).1.PF_wait_timestamp = tenv.now_after + tenv.pulse_wait) := by
  constructor
  · cases hc : ienv.cmdline_gateway_ip with
    | none => simp [multi_port_forward_init, h0, hc, h1, h2]
    | some g =>
      rcases hg : PF_get_addr ienv.gateway_resolv with ⟨lg, og⟩
      cases og <;> simp [multi_port_forward_init, h0, hc, hg, h1, h2]
  · intro hinit hdue
    have hgate : ¬ (t.PF_wait_timestamp > tenv.now_gate) := not_lt.mpr hdue
    rcases hev : tenv.eval_state with _ | st
    · simp [multi_port_forward_do, hinit, hgate, hev]
    · cases st <;> rcases hfi : tenv.flow_info with _ | infos <;>
        simp [multi_port_forward_do, hinit, hgate, hev, hfi]

/-- Witness for C4 at a concrete successful init environment and a concrete
due tick. -/
theorem pulse_sets_next_due_witness :
    (multi_port_forward_init initEnvOk pfInitial).1.PF_wait_timestamp =
      initEnvOk.now + initEnvOk.pulse_wait ∧
    (multi_port_forward_do tickEnv0 sReady).1.PF_wait_timestamp =
      tickEnv0.now_after + tickEnv0.pulse_wait :=
  ⟨(pulse_sets_next_due initEnvOk tickEnv0 pfInitial sReady 1 2 rfl rfl rfl).1,
   (pulse_sets_next_due initEnvOk tickEnv0 pfInitial sReady 1 2 rfl rfl rfl).2 rfl (by decide)⟩

/-- Every event PF_get_addr emits is a log line. -/
theorem PF_get_addr_all_logs (r : Except String (List addrinfo)) :
    ∀ e ∈ (PF_get_addr r).1, ∃ m, e = Event.log m := by
  cases r with
  | error err =>
    intro e he
    simp [PF_get_addr] at he
    exact ⟨_, he⟩
  | ok l =>
    intro e he
    simp [PF_get_addr] at he

/-- PF_get_addr performs no engine construction. -/
theorem PF_get_addr_no_init (r : Except String (List addrinfo)) :
    (PF_get_addr r).1.countP isInitCall = 0 := by
  cases r <;> simp [PF_get_addr, isInitCall]

/-- PF_get_addr performs no flow request. -/
theorem PF_get_addr_no_new_flow (r : Except String (List addrinfo)) :
    (PF_get_addr r).1.countP isNewFlowCall = 0 := by
  cases r <;> simp [PF_get_addr, isNewFlowCall]

/-- PF_get_addr registers no gateway server. -/
theorem PF_get_addr_no_add_server (r : Except String (List addrinfo)) :
    (PF_get_addr r).1.countP isAddServerCall = 0 := by
  cases r <;> simp [PF_get_addr, isAddServerCall]

/-- C5: after a fully successful init, a second init (under any environment)
returns at once, leaving the state untouched, emitting nothing and calling
the engine on nothing, and the first init's trace holds exactly one engine
construction and exactly one flow request. -/
theorem init_idempotent (env1 env2 : InitEnv) (s : PFState) (c f : Nat)
    (h0 : s.PF_initted = false)
    (h1 : env1.pcp_init_result = some c)
    (h2 : env1.new_flow_result = some f) :
    multi_port_forward_init env2 (multi_port_forward_init env1 s).1 =
      ((multi_port_forward_init env1 s).1, []) ∧
    (multi_port_forward_init env1 s).2.countP isInitCall = 1 ∧
    (multi_port_forward_init env1 s).2.countP isNewFlowCall = 1 := by
  refine ⟨?_, ?_, ?_⟩
  · simp [multi_port_forward_init, h0, h1, h2]
  all_goals
    cases hc : env1.cmdline_gateway_ip with
    | none =>
      simp [multi_port_forward_init, h0, hc, h1, h2, List.countP_append, List.countP_cons,
            PF_get_addr_no_init, PF_get_addr_no_new_flow, isInitCall, isNewFlowCall]
    | some g =>
      rcases hg : PF_get_addr env1.gateway_resolv with ⟨lg, og⟩
      have hgi : lg.countP isInitCall = 0 := by
        have h := PF_get_addr_no_init env1.gateway_resolv
        rw [hg] at h
        exact h
      have hgn : lg.countP isNewFlowCall = 0 := by
        have h := PF_get_addr_no_new_flow env1.gateway_resolv
        rw [hg] at h
        exact h
      cases og <;>
        simp [multi_port_forward_init, h0, hc, hg, h1, h2, List.countP_append,
              List.countP_cons, PF_get_addr_no_init, PF_get_addr_no_new_flow, hgi, hgn,
              isInitCall, isNewFlowCall]

/-- Witness for C5 at a concrete fresh state and successful environment. -/
theorem init_idempotent_witness :
    multi_port_forward_init initEnvOk (multi_port_forward_init initEnvOk pfInitial).1 =
      ((multi_port_forward_init initEnvOk pfInitial).1, []) ∧
    (multi_port_forward_init initEnvOk pfInitial).2.countP isInitCall = 1 ∧
    (multi_port_forward_init initEnvOk pfInitial).2.countP isNewFlowCall = 1 :=
  init_idempotent initEnvOk initEnvOk pfInitial 1 2 rfl rfl rfl

/-- C6: close is a no-op when not initialized (hence also on every repeated
call), and an effective close terminates the engine exactly once, logs
exactly one line ("Mapping removed" with a live flow, "Shutdown" without),
clears both handles, zeroes the wait timestamp and clears the initialized
flag. -/
theorem close_safe (s : PFState) :
    (s.PF_initted = false → multi_port_forward_close s = (s, [])) ∧
    (s.PF_initted = true →
      (multi_port_forward_close s).1 =
        { PF_initted := false, PF_pcp_flow := none, PF_pcp_ctx := none,
          PF_wait_timestamp := 0 } ∧
      (multi_port_forward_close s).2 =
        [Event.pcp_terminate s.PF_pcp_ctx 1,
         Event.log (if s.PF_pcp_flow.isSome then "Port forward => Mapping removed"
                    else "Port forward => Shutdown")]) ∧
    multi_port_forward_close (multi_port_forward_close s).1 =
      ((multi_port_forward_close s).1, []) := by
  refine ⟨fun h => ?_, fun h => ?_, ?_⟩
  · simp [multi_port_forward_close, h]
  · cases hf : s.PF_pcp_flow <;> simp [multi_port_forward_close, h, hf]
  · cases hb : s.PF_initted
    · simp [multi_port_forward_close, hb]
    · cases hf : s.PF_pcp_flow <;> simp [multi_port_forward_close, hb, hf]

/-- Witness for C6 at a never-initialized state and at an initialized one. -/
theorem close_safe_witness :
    multi_port_forward_close pfInitial = (pfInitial, []) ∧
    (multi_port_forward_close sReady).1 =
      { PF_initted := false, PF_pcp_flow := none, PF_pcp_ctx := none,
        PF_wait_timestamp := 0 } ∧
    multi_port_forward_close (multi_port_forward_close sReady).1 =
      ((multi_port_forward_close sReady).1, []) :=
  ⟨(close_safe pfInitial).1 rfl, ((close_safe sReady).2.1 rfl).1, (close_safe sReady).2.2⟩

/-- C7: when the operator-specified gateway host fails to resolve, init still
constructs the engine, with auto-discovery enabled, and never registers a
manual gateway server. -/
theorem init_gateway_fallback (env : InitEnv) (s : PFState) (g : String)
    (h0 : s.PF_initted = false)
    (h1 : env.cmdline_gateway_ip = some g)
    (h2 : (PF_get_addr env.gateway_resolv).2 = none) :
    Event.pcp_init true ∈ (multi_port_forward_init env s).2 ∧
    (multi_port_forward_init env s).2.countP isAddServerCall = 0 := by
  rcases hg : PF_get_addr env.gateway_resolv with ⟨lg, og⟩
  rw [hg] at h2
  simp only at h2
  subst h2
  have hga : lg.countP isAddServerCall = 0 := by
    have h := PF_get_addr_no_add_server env.gateway_resolv
    rw [hg] at h
    exact h
  constructor
  · cases hi : env.pcp_init_result with
    | none => simp [multi_port_forward_init, h0, h1, hg, hi]
    | some c =>
      cases hf : env.new_flow_result <;>
        simp [multi_port_forward_init, h0, h1, hg, hi, hf]
  · cases hi : env.pcp_init_result with
    | none =>
      simp [multi_port_forward_init, h0, h1, hg, hi, List.countP_append, List.countP_cons,
            hga, isAddServerCall]
    | some c =>
      cases hf : env.new_flow_result <;>
        simp [multi_port_forward_init, h0, h1, hg, hi, hf, multi_port_forward_close,
              List.countP_append, List.countP_cons, hga, PF_get_addr_no_add_server,
              isAddServerCall]

/-- Witness for C7 at a concrete environment whose gateway host resolution
fails. -/
theorem init_gateway_fallback_witness :
    (PF_get_addr initEnvGwFail.gateway_resolv).2 = none ∧
    Event.pcp_init true ∈ (multi_port_forward_init initEnvGwFail pfInitial).2 ∧
    (multi_port_forward_init initEnvGwFail pfInitial).2.countP isAddServerCall = 0 :=
  ⟨rfl, init_gateway_fallback initEnvGwFail pfInitial "192.168.0.1" rfl rfl rfl⟩

/-- C8 counterexample: in an environment where the local wildcard lookup
fails but the engine calls succeed, init still issues the flow request,
passing the unresolved address — the resolution failure is not fatal to that
step. -/
theorem resolution_fatal_cex :
    (PF_get_addr initEnvLocalFail.local_resolv).2 = none ∧
    Event.pcp_new_flow 1 none IPPROTO_UDP PF_lifetime ∈
      (multi_port_forward_init initEnvLocalFail pfInitial).2 := by
  decide

/-- C8 amended: a failed gateway-host resolution aborts the manual-gateway
step (no server is registered), but a failed local-bind resolution is
ignored: the flow request is issued regardless, with the unresolved
address. -/
theorem resolution_failure_scoped (env : InitEnv) (s : PFState) (c : Nat)
    (h0 : s.PF_initted = false)
    (h1 : env.pcp_init_result = some c)
    (h2 : (PF_get_addr env.local_resolv).2 = none) :
    ((PF_get_addr env.gateway_resolv).2 = none →
      (multi_port_forward_init env s).2.countP isAddServerCall = 0) ∧
    Event.pcp_new_flow c none IPPROTO_UDP PF_lifetime ∈
      (multi_port_forward_init env s).2 := by
  rcases hl : PF_get_addr env.local_resolv with ⟨ll, ol⟩
  rw [hl] at h2
  simp only at h2
  subst h2
  have hla : ll.countP isAddServerCall = 0 := by
    have h := PF_get_addr_no_add_server env.local_resolv
    rw [hl] at h
    exact h
  constructor
  · intro hgw
    cases hc : env.cmdline_gateway_ip with
    | none =>
      cases hf : env.new_flow_result <;>
        simp [multi_port_forward_init, h0, hc, h1, hf, hl, multi_port_forward_close,
              List.countP_append, List.countP_cons, hla, isAddServerCall]
    | some g =>
      rcases hg : PF_get_addr env.gateway_resolv with ⟨lg, og⟩
      rw [hg] at hgw
      simp only at hgw
      subst hgw
      have hga : lg.countP isAddServerCall = 0 := by
        have h := PF_get_addr_no_add_server env.gateway_resolv
        rw [hg] at h
        exact h
      cases hf : env.new_flow_result <;>
        simp [multi_port_forward_init, h0, hc, h1, hf, hg, hl, multi_port_forward_close,
              List.countP_append, List.countP_cons, hga, hla, isAddServerCall]
  · cases hc : env.cmdline_gateway_ip with
    | none =>
      cases hf : env.new_flow_result <;>
        simp [multi_port_forward_init, h0, hc, h1, hf, hl]
    | some g =>
      rcases hg : PF_get_addr env.gateway_resolv with ⟨lg, og⟩
      cases og <;> cases hf : env.new_flow_result <;>
        simp [multi_port_forward_init, h0, hc, h1, hf, hg, hl]

/-- Witness for the amended C8 at the concrete failing-lookup environment. -/
theorem resolution_failure_scoped_witness :
    (multi_port_forward_init initEnvLocalFail pfInitial).2.countP isAddServerCall = 0 ∧
    Event.pcp_new_flow 1 none IPPROTO_UDP PF_lifetime ∈
      (multi_port_forward_init initEnvLocalFail pfInitial).2 :=
  ⟨(resolution_failure_scoped initEnvLocalFail pfInitial 1 rfl rfl rfl).1 rfl,
   (resolution_failure_scoped initEnvLocalFail pfInitial 1 rfl rfl rfl).2⟩

/-- (a ++ b).data is a.data ++ b.data. -/
theorem string_data_append (a b : String) : (a ++ b).data = a.data ++ b.data := rfl

/-- A head that begins the left operand of an append begins the append. -/
theorem head_of_append (h a b : String) (hp : h.data <+: a.data) :
    h.data <+: (a ++ b).data := by
  rw [string_data_append]
  exact hp.trans (List.prefix_append a.data b.data)

/-- logsOf distributes over trace concatenation. -/
theorem logsOf_append (a b : List Event) : logsOf (a ++ b) = logsOf a ++ logsOf b := by
  simp [logsOf]

/-- A string is a log line of a trace exactly when its log event is in the
trace. -/
theorem mem_logsOf (m : String) (l : List Event) : m ∈ logsOf l ↔ Event.log m ∈ l := by
  induction l with
  | nil => simp [logsOf]
  | cons e t ih =>
    cases e <;> simp [logsOf, List.filterMap_cons] at ih ⊢ <;> simp [ih]

/-- Every log line of PF_get_addr begins with the resolver head. -/
theorem PF_get_addr_log_heads (r : Except String (List addrinfo)) :
    ∀ m : String, Event.log m ∈ (PF_get_addr r).1 → resolverLogHead.data <+: m.data := by
  cases r with
  | error err =>
    intro m hm
    simp [PF_get_addr] at hm
    subst hm
    exact head_of_append _ _ _ (by decide)
  | ok l =>
    intro m hm
    simp [PF_get_addr] at hm

/-- The "Mapping successful" line carries the report head. -/
theorem mapping_successful_line_head (env : TickEnv) (info : pcp_flow_info_t) :
    pfLogHead.data <+: (mapping_successful_line env info).data := by
  unfold mapping_successful_line
  repeat' apply head_of_append
  decide

/-- The "Mapping valid until" line carries the report head. -/
theorem mapping_valid_line_head (env : TickEnv) (info : pcp_flow_info_t) :
    pfLogHead.data <+: (mapping_valid_line env info).data := by
  unfold mapping_valid_line
  repeat' apply head_of_append
  decide

/-- Every log line of a close carries the report head. -/
theorem close_log_heads (s : PFState) :
    ∀ m ∈ logsOf (multi_port_forward_close s).2, pfLogHead.data <+: m.data := by
  intro m hm
  rw [mem_logsOf] at hm
  cases hb : s.PF_initted with
  | false => simp [multi_port_forward_close, hb] at hm
  | true =>
    cases hf : s.PF_pcp_flow <;>
      simp [multi_port_forward_close, hb, hf] at hm <;> subst hm <;> decide

/-- Every log line of a tick carries the report head. -/
theorem tick_log_heads (env : TickEnv) (s : PFState) :
    ∀ m ∈ logsOf (multi_port_forward_do env s).2, pfLogHead.data <+: m.data := by
  intro m hm
  rw [mem_logsOf] at hm
  cases hb : s.PF_initted with
  | false => simp [multi_port_forward_do, hb] at hm
  | true =>
    by_cases hgate : s.PF_wait_timestamp > env.now_gate
    · simp [multi_port_forward_do, hb, hgate] at hm
    · rcases hev : env.eval_state with _ | st
      · simp [multi_port_forward_do, hb, hgate, hev] at hm
      · cases st <;> rcases hfi : env.flow_info with _ | infos <;>
          simp [multi_port_forward_do, hb, hgate, hev, hfi] at hm <;>
          first
          | (subst hm; decide)
          | (obtain ⟨info, hinfo, hm⟩ := hm
             rcases hm with hm | hm <;> subst hm
             · exact mapping_successful_line_head env info
             · exact mapping_valid_line_head env info)

/-- Every log line of an init carries the report head or the resolver head. -/
theorem init_log_heads (env : InitEnv) (s : PFState) :
    ∀ m ∈ logsOf (multi_port_forward_init env s).2,
      pfLogHead.data <+: m.data ∨ resolverLogHead.data <+: m.data := by
  intro m hm
  rw [mem_logsOf] at hm
  cases hb : s.PF_initted with
  | true => simp [multi_port_forward_init, hb] at hm
  | false =>
    have hloc := PF_get_addr_log_heads env.local_resolv
    rcases hg : PF_get_addr env.gateway_resolv with ⟨lg, og⟩
    have hgw : ∀ m2 : String, Event.log m2 ∈ lg → resolverLogHead.data <+: m2.data := by
      have h := PF_get_addr_log_heads env.gateway_resolv
      rw [hg] at h
      exact h
    cases hc : env.cmdline_gateway_ip with
    | none =>
      cases hi : env.pcp_init_result with
      | none =>
        simp [multi_port_forward_init, hb, hc, hi] at hm
        subst hm
        exact Or.inl (by decide)
      | some c =>
        cases hf : env.new_flow_result with
        | none =>
          simp [multi_port_forward_init, hb, hc, hi, hf, multi_port_forward_close] at hm
          rcases hm with hm | hm | hm
          · exact Or.inr (hloc m hm)
          · subst hm; exact Or.inl (by decide)
          · subst hm; exact Or.inl (by decide)
        | some f =>
          simp [multi_port_forward_init, hb, hc, hi, hf] at hm
          rcases hm with hm | hm
          · exact Or.inr (hloc m hm)
          · subst hm; exact Or.inl (by decide)
    | some g =>
      cases og <;> cases hi : env.pcp_init_result with
      | none =>
        simp [multi_port_forward_init, hb, hc, hg, hi] at hm
        rcases hm with hm | hm
        · exact Or.inr (hgw m hm)
        · subst hm; exact Or.inl (by decide)
      | some c =>
        cases hf : env.new_flow_result with
        | none =>
          simp [multi_port_forward_init, hb, hc, hg, hi, hf, multi_port_forward_close] at hm
          rcases hm with hm | hm | hm | hm
          · exact Or.inr (hgw m hm)
          · exact Or.inr (hloc m hm)
          · subst hm; exact Or.inl (by decide)
          · subst hm; exact Or.inl (by decide)
        | some f =>
          simp [multi_port_forward_init, hb, hc, hg, hi, hf] at hm
          rcases hm with hm | hm | hm
          · exact Or.inr (hgw m hm)
          · exact Or.inr (hloc m hm)
          · subst hm; exact Or.inl (by decide)

/-- C9 counterexample: the resolver failure line emitted during an init is a
module message that does not begin with "Port forward => ". -/
theorem log_head_cex :
    "PF_get_addr : getaddrinfo() => Temporary failure in name resolution" ∈
      logsOf (multi_port_forward_init initEnvLocalFail pfInitial).2 ∧
    ¬ (pfLogHead.data <+:
        ("PF_get_addr : getaddrinfo() => Temporary failure in name resolution" : String).data) := by
  decide

/-- C9 amended: every message any operation hands to the report sink begins
with "Port forward => ", except the address-resolution failure line, which
begins with "PF_get_addr : ". -/
theorem log_heads (ienv : InitEnv) (tenv : TickEnv) (s : PFState) (msg : String)
    (h : msg ∈ logsOf (multi_port_forward_init ienv s).2 ∨
         msg ∈ logsOf (multi_port_forward_do tenv s).2 ∨
         msg ∈ logsOf (multi_port_forward_close s).2) :
    pfLogHead.data <+: msg.data ∨ resolverLogHead.data <+: msg.data := by
  rcases h with h | h | h
  · exact init_log_heads ienv s msg h
  · exact Or.inl (tick_log_heads tenv s msg h)
  · exact Or.inl (close_log_heads s msg h)

/-- Witness for the amended C9 at a concrete tick log line. -/
theorem log_heads_witness :
    "Port forward => Mapping failed!" ∈
      logsOf (multi_port_forward_do tickEnvFailed sReady).2 ∧
    (pfLogHead.data <+: ("Port forward => Mapping failed!" : String).data ∨
     resolverLogHead.data <+: ("Port forward => Mapping failed!" : String).data) :=
  ⟨by decide,
   log_heads initEnvOk tickEnvFailed sReady "Port forward => Mapping failed!"
     (Or.inr (Or.inl (by decide)))⟩

/-- A list of log events passes only live contexts (vacuously). -/
theorem log_events_good (l : List Event) (hl : ∀ e ∈ l, ∃ m, e = Event.log m) :
    ∀ e ∈ l, goodEvent e := by
  intro e he
  obtain ⟨m, hm⟩ := hl e he
  subst hm
  simp [goodEvent]

/-- A close preserves the handle invariant and passes only live contexts. -/
theorem close_good (s : PFState) (hs : ctxInv s) :
    ctxInv (multi_port_forward_close s).1 ∧
    ∀ e ∈ (multi_port_forward_close s).2, goodEvent e := by
  cases hb : s.PF_initted with
  | false =>
    constructor
    · simpa [multi_port_forward_close, hb] using hs
    · simp [multi_port_forward_close, hb]
  | true =>
    have hctx : s.PF_pcp_ctx ≠ none := hs hb
    constructor
    · intro h
      simp [multi_port_forward_close, hb] at h
    · cases hf : s.PF_pcp_flow <;>
        simp [multi_port_forward_close, hb, hf, goodEvent, hctx]

/-- A tick preserves the handle invariant and passes only live contexts. -/
theorem tick_good (env : TickEnv) (s : PFState) (hs : ctxInv s) :
    ctxInv (multi_port_forward_do env s).1 ∧
    ∀ e ∈ (multi_port_forward_do env s).2, goodEvent e := by
  cases hb : s.PF_initted with
  | false =>
    constructor
    · simpa [multi_port_forward_do, hb] using hs
    · simp [multi_port_forward_do, hb]
  | true =>
    have hctx : s.PF_pcp_ctx ≠ none := hs hb
    by_cases hgate : s.PF_wait_timestamp > env.now_gate
    · constructor
      · simpa [multi_port_forward_do, hb, hgate] using hs
      · simp [multi_port_forward_do, hb, hgate]
    · have hinv : ctxInv { s with PF_wait_timestamp := env.now_after + env.pulse_wait } :=
        fun _ => hctx
      rcases hev : env.eval_state with _ | st
      · constructor
        · simpa [multi_port_forward_do, hb, hgate, hev] using hinv
        · simp [multi_port_forward_do, hb, hgate, hev, goodEvent, hctx]
      · cases st with
        | pcp_state_processing =>
          constructor
          · simpa [multi_port_forward_do, hb, hgate, hev] using hinv
          · simp [multi_port_forward_do, hb, hgate, hev, goodEvent, hctx]
        | pcp_state_short_lifetime_error =>
          constructor
          · simpa [multi_port_forward_do, hb, hgate, hev] using hinv
          · simp [multi_port_forward_do, hb, hgate, hev, goodEvent, hctx]
        | pcp_state_failed =>
          constructor
          · simpa [multi_port_forward_do, hb, hgate, hev] using hinv
          · simp [multi_port_forward_do, hb, hgate, hev, goodEvent, hctx]
        | pcp_state_succeeded =>
          rcases hfi : env.flow_info with _ | infos
          · constructor
            · simpa [multi_port_forward_do, hb, hgate, hev, hfi] using hinv
            · simp [multi_port_forward_do, hb, hgate, hev, hfi, goodEvent, hctx]
          · constructor
            · simpa [multi_port_forward_do, hb, hgate, hev, hfi] using hinv
            · intro e he
              simp [multi_port_forward_do, hb, hgate, hev, hfi] at he
              rcases he with he | he | he | he | he
              · subst he; simp [goodEvent, hctx]
              · subst he; simp [goodEvent]
              · subst he; simp [goodEvent]
              · obtain ⟨info, hinfo, he⟩ := he
                rcases he with he | he <;> subst he <;> simp [goodEvent]
              · subst he; simp [goodEvent]


/-- An init preserves the handle invariant and passes only live contexts. -/
theorem init_good (env : InitEnv) (s : PFState) (hs : ctxInv s) :
    ctxInv (multi_port_forward_init env s).1 ∧
    ∀ e ∈ (multi_port_forward_init env s).2, goodEvent e := by
  cases hb : s.PF_initted with
  | true =>
    constructor
    · simpa [multi_port_forward_init, hb] using hs
    · simp [multi_port_forward_init, hb]
  | false =>
    have hgl := PF_get_addr_all_logs env.gateway_resolv
    rcases hg : PF_get_addr env.gateway_resolv with ⟨lg, og⟩
    rw [hg] at hgl
    have hlg : ∀ e ∈ lg, goodEvent e := log_events_good lg hgl
    have hlloc : ∀ e ∈ (PF_get_addr env.local_resolv).1, goodEvent e :=
      log_events_good _ (PF_get_addr_all_logs env.local_resolv)
    cases hc : env.cmdline_gateway_ip with
    | none =>
      cases hi : env.pcp_init_result with
      | none =>
        constructor
        · intro h
          simp [multi_port_forward_init, hb, hc, hi] at h
        · simp [multi_port_forward_init, hb, hc, hi, goodEvent]
      | some c =>
        cases hf : env.new_flow_result with
        | none =>
          constructor
          · intro h
            simp [multi_port_forward_init, hb, hc, hi, hf, multi_port_forward_close] at h
          · intro e he
            simp [multi_port_forward_init, hb, hc, hi, hf, multi_port_forward_close] at he
            rcases he with he | he | he | he | he | he
            all_goals
              first
              | exact hlloc e he
              | (subst he; simp [goodEvent])
        | some f =>
          constructor
          · intro h
            simp [multi_port_forward_init, hb, hc, hi, hf]
          · intro e he
            simp [multi_port_forward_init, hb, hc, hi, hf] at he
            rcases he with he | he | he | he | he
            all_goals
              first
              | exact hlloc e he
              | (subst he; simp [goodEvent])
    | some g =>
      cases og with
      | none =>
        cases hi : env.pcp_init_result with
        | none =>
          constructor
          · intro h
            simp [multi_port_forward_init, hb, hc, hg, hi] at h
          · intro e he
            simp [multi_port_forward_init, hb, hc, hg, hi] at he
            rcases he with he | he | he
            all_goals
              first
              | exact hlg e he
              | (subst he; simp [goodEvent])
        | some c =>
          cases hf : env.new_flow_result with
          | none =>
            constructor
            · intro h
              simp [multi_port_forward_init, hb, hc, hg, hi, hf,
                    multi_port_forward_close] at h
            · intro e he
              simp [multi_port_forward_init, hb, hc, hg, hi, hf,
                    multi_port_forward_close] at he
              rcases he with he | he | he | he | he | he | he
              all_goals
                first
                | exact hlg e he
                | exact hlloc e he
                | (subst he; simp [goodEvent])
          | some f =>
            constructor
            · intro h
              simp [multi_port_forward_init, hb, hc, hg, hi, hf]
            · intro e he
              simp [multi_port_forward_init, hb, hc, hg, hi, hf] at he
              rcases he with he | he | he | he | he | he
              all_goals
                first
                | exact hlg e he
                | exact hlloc e he
                | (subst he; simp [goodEvent])
      | some a =>
        cases hi : env.pcp_init_result with
        | none =>
          constructor
          · intro h
            simp [multi_port_forward_init, hb, hc, hg, hi] at h
          · intro e he
            simp [multi_port_forward_init, hb, hc, hg, hi] at he
            rcases he with he | he | he
            all_goals
              first
              | exact hlg e he
              | (subst he; simp [goodEvent])
        | some c =>
          cases hf : env.new_flow_result with
          | none =>
            constructor
            · intro h
              simp [multi_port_forward_init, hb, hc, hg, hi, hf,
                    multi_port_forward_close] at h
            · intro e he
              simp [multi_port_forward_init, hb, hc, hg, hi, hf,
                    multi_port_forward_close] at he
              rcases he with he | he | he | he | he | he | he | he
              all_goals
                first
                | exact hlg e he
                | exact hlloc e he
                | (subst he; simp [goodEvent])
          | some f =>
            constructor
            · intro h
              simp [multi_port_forward_init, hb, hc, hg, hi, hf]
            · intro e he
              simp [multi_port_forward_init, hb, hc, hg, hi, hf] at he
              rcases he with he | he | he | he | he | he | he
              all_goals
                first
                | exact hlg e he
                | exact hlloc e he
                | (subst he; simp [goodEvent])


/-- Any single operation preserves the handle invariant and passes only live
contexts. -/
theorem runOp_good (op : Op) (s : PFState) (hs : ctxInv s) :
    ctxInv (runOp op s).1 ∧ ∀ e ∈ (runOp op s).2, goodEvent e := by
  cases op with
  | op_init env => exact init_good env s hs
  | op_tick env => exact tick_good env s hs
  | op_close => exact close_good s hs

/-- Any operation sequence from an invariant state preserves the invariant
and passes only live contexts. -/
theorem runOps_good (ops : List Op) (s : PFState) (hs : ctxInv s) :
    ctxInv (runOps ops s).1 ∧ ∀ e ∈ (runOps ops s).2, goodEvent e := by
  induction ops generalizing s with
  | nil => exact ⟨hs, by simp [runOps]⟩
  | cons op rest ih =>
    have h1 := runOp_good op s hs
    have h2 := ih (runOp op s).1 h1.1
    refine ⟨h2.1, ?_⟩
    intro e he
    simp only [runOps, List.mem_append] at he
    rcases he with he | he
    · exact h1.2 e he
    · exact h2.2 e he

/-- C10: from the initial state, every operation sequence keeps the
invariant that an initialized session holds a non-null engine context, and
consequently no pcp_pulse or pcp_terminate call in the whole trace is passed
a null engine context. -/
theorem ctx_never_null (ops : List Op) :
    ctxInv (runOps ops pfInitial).1 ∧ ∀ e ∈ (runOps ops pfInitial).2, goodEvent e :=
  runOps_good ops pfInitial (by intro h; simp [pfInitial] at h)

/-- Witness for C10 on a concrete init-then-close run, checked at its
terminate event. -/
theorem ctx_never_null_witness :
    ctxInv (runOps [Op.op_init initEnvOk, Op.op_close] pfInitial).1 ∧
    Event.pcp_terminate (some 1) 1 ∈
      (runOps [Op.op_init initEnvOk, Op.op_close] pfInitial).2 ∧
    goodEvent (Event.pcp_terminate (some 1) 1) :=
  ⟨(ctx_never_null [Op.op_init initEnvOk, Op.op_close]).1,
   by decide,
   (ctx_never_null [Op.op_init initEnvOk, Op.op_close]).2
     (Event.pcp_terminate (some 1) 1) (by decide)⟩

end MultiPortFwd
